import Mathlib

/-!
Shallow embedding of the Voice-Instrument-Separation app.

The app's interesting behaviour lives in:
  * `utils/audioProcessing` (src/unnamed/part_005): `processingAudio` and
    `mergeAudioTracks`, stubbed separation/merge functions dispatching on
    `Platform.OS`;
  * `utils/fileSystem` (src/unnamed/part_004): `saveAudioToCache`,
    `createTempDirectory`;
  * the Editor, Export and Upload screens (src/unnamed/part_000, part_001):
    `processAudio`, `exportAudio`, `pickAudio` state transitions;
  * `components/AudioWaveform.tsx`: `generateRandomBars`;
  * the `Slider` component (src/unnamed/part_003): `calculateValue`.

The host file system is modelled as a finite-ish map from path strings to file
contents (`Option String`); `expo-file-system` calls become explicit state
passing.  `Date.now()` is a `now : Nat` parameter, `setTimeout` sleeps are
recorded as a returned millisecond count, and JS promise rejection is an
`Except`/`Option` value.  JS numbers are modelled as `ℚ`.
-/

/-- The two relevant values of React Native's `Platform.OS` dispatch: the code
only distinguishes `'web'` from everything else (native). -/
inductive Platform where
  | web
  | native
deriving DecidableEq

/-- A model file system: each path either holds file content or nothing. -/
abbrev FS : Type := String → Option String

/-- Write `content` at `path` (creating or overwriting the file). -/
def fsWrite (fs : FS) (path content : String) : FS :=
  fun q => if q = path then some content else fs q

/-- Remove the file at `path`. -/
def fsDelete (fs : FS) (path : String) : FS :=
  fun q => if q = path then none else fs q

/-- Model of `FileSystem.copyAsync({from, to})`: rejects (returns `none`) when the
source does not exist, otherwise writes the source's bytes at `to`. -/
def copyAsync (fs : FS) (src dst : String) : Option FS :=
  match fs src with
  | some c => some (fsWrite fs dst c)
  | none => none

/-- Model of `(await FileSystem.getInfoAsync(path)).exists`. -/
def getInfoExists (fs : FS) (path : String) : Bool :=
  (fs path).isSome

/-- Model of `FileSystem.cacheDirectory`, an opaque platform constant path string. -/
def cacheDirectory : String := "file:///cache/"

/-- Model of `createTempDirectory` from utils/fileSystem: on web it returns `''`; on
native it returns `cacheDirectory + "temp_" + Date.now() + "/"` (the
`makeDirectoryAsync` call only creates a directory, which the file map does
not track). -/
def createTempDirectory (p : Platform) (now : Nat) : String :=
  match p with
  | .web => ""
  | .native => cacheDirectory ++ "temp_" ++ toString now ++ "/"

/-- The `ProcessingResult` interface of utils/audioProcessing. -/
structure ProcessingResult where
  success : Bool
  vocalTrack : Option String
  instrumentalTrack : Option String
  error : Option String
deriving DecidableEq

/-- The `MergeResult` interface of utils/audioProcessing. -/
structure MergeResult where
  success : Bool
  outputUri : Option String
  error : Option String
deriving DecidableEq

/-- Model of `webProcessAudio`: sleeps 3000 ms, then returns the input URI with
`"_vocals"` / `"_instrumental"` appended; no file-system call is made, and
nothing in the `try` block can reject, so the `catch` branch is dead.  The
result triple is (result, file system after the call, milliseconds slept). -/
def webProcessAudio (fs : FS) (audioUri : String) : ProcessingResult × FS × Nat :=
  (⟨true, some (audioUri ++ "_vocals"), some (audioUri ++ "_instrumental"), none⟩, fs, 3000)

/-- Model of `nativeProcessAudio`: sleeps 3000 ms, makes a temp directory, then copies
the input to `vocals.mp3` and `instrumental.mp3` under it; any rejection is
caught and turned into a `success: false` result. -/
def nativeProcessAudio (fs : FS) (now : Nat) (audioUri : String) :
    ProcessingResult × FS × Nat :=
  let tempDir := createTempDirectory .native now
  let vocalTrack := tempDir ++ "vocals.mp3"
  let instrumentalTrack := tempDir ++ "instrumental.mp3"
  match copyAsync fs audioUri vocalTrack with
  | none => (⟨false, none, none, some "Failed to process audio on device."⟩, fs, 3000)
  | some fs1 =>
    match copyAsync fs1 audioUri instrumentalTrack with
    | none => (⟨false, none, none, some "Failed to process audio on device."⟩, fs1, 3000)
    | some fs2 => (⟨true, some vocalTrack, some instrumentalTrack, none⟩, fs2, 3000)

/-- Model of `processingAudio`: dispatch on `Platform.OS`. -/
def processingAudio (p : Platform) (fs : FS) (now : Nat) (audioUri : String) :
    ProcessingResult × FS × Nat :=
  match p with
  | .web => webProcessAudio fs audioUri
  | .native => nativeProcessAudio fs now audioUri

/-- Model of `webMergeAudio`: sleeps 2000 ms and returns `mixed_<now>.mp3`; the volume
arguments and both input URIs are unused and no file is touched. -/
def webMergeAudio (fs : FS) (now : Nat)
    (vocalUri instrumentalUri : String) (vocalVolume instrumentalVolume : ℚ) :
    MergeResult × FS × Nat :=
  (⟨true, some ("mixed_" ++ toString now ++ ".mp3"), none⟩, fs, 2000)

/-- Model of `nativeMergeAudio`: sleeps 2000 ms, then copies the vocal input to
`cacheDirectory + "mixed_" + Date.now() + ".mp3"`; the instrumental URI and
both volumes are unused; a rejected copy is caught as `success: false`. -/
def nativeMergeAudio (fs : FS) (now : Nat)
    (vocalUri instrumentalUri : String) (vocalVolume instrumentalVolume : ℚ) :
    MergeResult × FS × Nat :=
  let outputUri := cacheDirectory ++ "mixed_" ++ toString now ++ ".mp3"
  match copyAsync fs vocalUri outputUri with
  | none => (⟨false, none, some "Failed to merge audio tracks on device."⟩, fs, 2000)
  | some fs1 => (⟨true, some outputUri, none⟩, fs1, 2000)

/-- Model of `mergeAudioTracks`: dispatch on `Platform.OS`. -/
def mergeAudioTracks (p : Platform) (fs : FS) (now : Nat)
    (vocalUri instrumentalUri : String) (vocalVolume instrumentalVolume : ℚ) :
    MergeResult × FS × Nat :=
  match p with
  | .web => webMergeAudio fs now vocalUri instrumentalUri vocalVolume instrumentalVolume
  | .native => nativeMergeAudio fs now vocalUri instrumentalUri vocalVolume instrumentalVolume

/-- Model of `saveAudioToCache` from utils/fileSystem: web returns the URI as is; native
computes `cacheDirectory + filename`, deletes it if it exists, copies the
source there and returns the destination; a rejected copy is rethrown
(`Except.error`). -/
def saveAudioToCache (p : Platform) (fs : FS) (uri filename : String) :
    Except String (String × FS) :=
  match p with
  | .web => .ok (uri, fs)
  | .native =>
    let destination := cacheDirectory ++ filename
    let fs1 := if getInfoExists fs destination then fsDelete fs destination else fs
    match copyAsync fs1 uri destination with
    | none => .error "Error saving file to cache"
    | some fs2 => .ok (destination, fs2)

/-- The Editor screen's `playbackMode` state, `'original' | 'processed'`. -/
inductive PlaybackMode where
  | original
  | processed
deriving DecidableEq

/-- The Editor screen state touched by `processAudio` and `stopAllPlayback`.
Alerts are recorded as a list of (title, message) pairs in the order shown. -/
structure EditorState where
  isProcessing : Bool
  isProcessed : Bool
  vocalTrack : Option String
  instrumentalTrack : Option String
  playbackMode : PlaybackMode
  isPlaying : Bool
  position : ℚ
  alerts : List (String × String)
deriving DecidableEq

namespace EditorScreen

/-- Model of `stopAllPlayback` from the Editor screen: sets `isPlaying` to false and
`position` to 0; the `stopAsync`/`setPositionAsync` sound calls have their
errors swallowed by local `try`/`catch` blocks and touch no screen state. -/
def stopAllPlayback (s : EditorState) : EditorState :=
  { s with isPlaying := false, position := 0 }

/-- Model of `processAudio` from the Editor screen.  `audioUri` is the screen's route
parameter; `callResult` is the outcome of the awaited `processingAudio` call
(`.error` when that promise rejects — the only await in the `try` block that
can reject, since `stopAllPlayback` and `loadProcessedTracks` swallow their
own errors).  Returns the new state and how many times `processingAudio` was
called. -/
def processAudio (s : EditorState) (audioUri : Option String)
    (callResult : Except String ProcessingResult) : EditorState × Nat :=
  match audioUri with
  | none => (s, 0)
  | some _ =>
    let s1 := { s with isProcessing := true }
    let s2 := stopAllPlayback s1
    match callResult with
    | .ok r =>
      if r.success then
        ({ s2 with vocalTrack := r.vocalTrack, instrumentalTrack := r.instrumentalTrack,
                   isProcessed := true, playbackMode := .processed,
                   isProcessing := false }, 1)
      else
        ({ s2 with alerts := s2.alerts ++
                     [("Processing Failed", r.error.getD "Failed to process audio.")],
                   isProcessing := false }, 1)
    | .error _ =>
        ({ s2 with alerts := s2.alerts ++
                     [("Error", "Failed to process audio. Please try again.")],
                   isProcessing := false }, 1)

end EditorScreen

/-- JS truthiness of an optional string route parameter: `undefined` and the
empty string are falsy. -/
def jsTruthyStr : Option String → Bool
  | none => false
  | some s => !s.isEmpty

/-- The Export screen state touched by `exportAudio`. -/
structure ExportState where
  isMerging : Bool
  exportedUri : Option String
  alerts : List (String × String)
deriving DecidableEq

namespace ExportScreen

/-- Model of `exportAudio` from the Export screen.  `vocalTrack`/`instrumentalTrack`
are the route parameters; `callResult` is the outcome of the awaited
`mergeAudioTracks` call.  Returns the new state and how many times
`mergeAudioTracks` was called. -/
def exportAudio (s : ExportState) (vocalTrack instrumentalTrack : Option String)
    (callResult : Except String MergeResult) : ExportState × Nat :=
  if !jsTruthyStr vocalTrack || !jsTruthyStr instrumentalTrack then
    ({ s with alerts := s.alerts ++
        [("Error", "Missing audio tracks. Please go back to the editor.")] }, 0)
  else
    let s1 := { s with isMerging := true }
    match callResult with
    | .ok r =>
      if r.success then
        ({ s1 with exportedUri := r.outputUri,
                   alerts := s1.alerts ++
                     [("Success", "Your audio has been successfully exported!")],
                   isMerging := false }, 1)
      else
        ({ s1 with alerts := s1.alerts ++
                     [("Export Failed", r.error.getD "Failed to export audio.")],
                   isMerging := false }, 1)
    | .error _ =>
        ({ s1 with alerts := s1.alerts ++
                     [("Error", "Failed to export audio. Please try again.")],
                   isMerging := false }, 1)

end ExportScreen

/-- JS truthiness of `asset.size` (`number | undefined`): `undefined` and `0`
are falsy. -/
def jsTruthyNat : Option Nat → Bool
  | none => false
  | some n => n != 0

/-- A picked document asset (the fields of `result.assets[0]` the Upload
screen reads). -/
structure PickedAsset where
  uri : String
  name : String
  size : Option Nat
deriving DecidableEq

/-- The Upload screen state touched by `pickAudio`.  The loaded `Audio.Sound`
object is abstracted as a numeric handle. -/
structure UploadState where
  audioUri : Option String
  fileName : Option String
  sound : Option Nat
  isPlaying : Bool
  alerts : List (String × String)
deriving DecidableEq

namespace UploadScreen

/-- Model of `pickAudio` from the Upload screen.  `pick` is the document-picker
outcome (`none` when canceled); `saveResult` is the outcome of the awaited
`saveAudioToCache` call when it is reached.  The trailing `loadAudio(savedUri)`
call is not awaited and only mutates state after `pickAudio` returns, so it is
not part of this transition. -/
def pickAudio (s : UploadState) (pick : Option PickedAsset)
    (saveResult : Except String String) : UploadState :=
  match pick with
  | none => s
  | some asset =>
    let s1 :=
      match s.sound with
      | some _ => { s with sound := none, isPlaying := false }
      | none => s
    let s2 := { s1 with fileName := some asset.name }
    if jsTruthyNat asset.size = true ∧ 50 * 1024 * 1024 < asset.size.getD 0 then
      { s2 with alerts := s2.alerts ++
          [("File too large", "Please select an audio file smaller than 50MB")] }
    else
      match saveResult with
      | .ok savedUri => { s2 with audioUri := some savedUri }
      | .error _ =>
          { s2 with
            alerts := s2.alerts ++ [("Invalid File", "Please select a valid audio file")],
            audioUri := none,
            fileName := none }

end UploadScreen

/-- Model of `BAR_COUNT` from AudioWaveform.tsx. -/
def BAR_COUNT : Nat := 50

/-- Model of `MAX_BAR_HEIGHT` from AudioWaveform.tsx. -/
def MAX_BAR_HEIGHT : ℚ := 80

/-- Model of `generateRandomBars` from AudioWaveform.tsx.  `rand i` is the value drawn
by `Math.random()` at iteration `i` (so `0 ≤ rand i < 1`); `jsSin i` abstracts
`Math.sin((i / BAR_COUNT) * Math.PI)`, which lies in `[0, 1]` since the
argument is in `[0, π)`.  Each bar is
`Math.max(5, MAX_BAR_HEIGHT * (0.1 + rand * 0.9) * bellCurve)`. -/
def generateRandomBars (rand jsSin : Nat → ℚ) : List ℚ :=
  (List.range BAR_COUNT).map fun i =>
    max 5 (MAX_BAR_HEIGHT * (1/10 + rand i * (9/10)) * jsSin i)

/-- Model of `Math.round` on exact rationals: round half toward positive infinity. -/
def jsRound (x : ℚ) : ℤ := ⌊x + 1/2⌋

/-- The Slider's raw interpolated value,
`minimumValue + (pos / 100) * (maximumValue - minimumValue)`. -/
def rawSliderValue (minimumValue maximumValue pos : ℚ) : ℚ :=
  minimumValue + (pos / 100) * (maximumValue - minimumValue)

/-- Model of `calculateValue` from the Slider component: interpolate, and unless `step`
is falsy (0), snap to `Math.round(rawValue / step) * step` and clamp with
`Math.min(Math.max(steppedValue, minimumValue), maximumValue)`. -/
def calculateValue (minimumValue maximumValue step pos : ℚ) : ℚ :=
  if step = 0 then rawSliderValue minimumValue maximumValue pos
  else
    min (max ((jsRound (rawSliderValue minimumValue maximumValue pos / step) : ℚ) * step)
          minimumValue) maximumValue

/-! Helper lemmas about the file-system model. -/

theorem fsWrite_self (fs : FS) (p c : String) : fsWrite fs p c p = some c := by
  simp [fsWrite]

theorem fsWrite_other (fs : FS) (p c q : String) (h : q ≠ p) :
    fsWrite fs p c q = fs q := by
  simp [fsWrite, h]

theorem fsWrite_pres (fs : FS) (p c q : String) (h : fs q = some c) :
    fsWrite fs p c q = some c := by
  unfold fsWrite
  split <;> simp [h]

theorem copyAsync_of_some (fs : FS) (src dst c : String) (h : fs src = some c) :
    copyAsync fs src dst = some (fsWrite fs dst c) := by
  simp [copyAsync, h]

theorem copyAsync_of_none (fs : FS) (src dst : String) (h : fs src = none) :
    copyAsync fs src dst = none := by
  simp [copyAsync, h]

theorem copyAsync_some (fs : FS) (src dst : String) (fs2 : FS)
    (h : copyAsync fs src dst = some fs2) :
    ∃ c, fs src = some c ∧ fs2 = fsWrite fs dst c := by
  unfold copyAsync at h
  rcases hs : fs src with _ | c
  · rw [hs] at h
    exact absurd h (by simp)
  · rw [hs] at h
    simp only [Option.some.injEq] at h
    exact ⟨c, rfl, h.symm⟩

/-! Characterizations of the native processing/merge stubs. -/

theorem nativeProcessAudio_of_exists (fs : FS) (now : Nat) (uri content : String)
    (h : fs uri = some content) :
    nativeProcessAudio fs now uri =
      (⟨true, some (createTempDirectory .native now ++ "vocals.mp3"),
         some (createTempDirectory .native now ++ "instrumental.mp3"), none⟩,
       fsWrite (fsWrite fs (createTempDirectory .native now ++ "vocals.mp3") content)
         (createTempDirectory .native now ++ "instrumental.mp3") content, 3000) := by
  have h2 : fsWrite fs (createTempDirectory .native now ++ "vocals.mp3") content uri
      = some content := fsWrite_pres _ _ _ _ h
  simp [nativeProcessAudio, copyAsync, h, h2]

theorem nativeProcessAudio_of_missing (fs : FS) (now : Nat) (uri : String)
    (h : fs uri = none) :
    nativeProcessAudio fs now uri =
      (⟨false, none, none, some "Failed to process audio on device."⟩, fs, 3000) := by
  simp [nativeProcessAudio, copyAsync, h]

theorem nativeMergeAudio_of_exists (fs : FS) (now : Nat)
    (vocalUri instrumentalUri content : String) (vv iv : ℚ)
    (h : fs vocalUri = some content) :
    nativeMergeAudio fs now vocalUri instrumentalUri vv iv =
      (⟨true, some (cacheDirectory ++ "mixed_" ++ toString now ++ ".mp3"), none⟩,
       fsWrite fs (cacheDirectory ++ "mixed_" ++ toString now ++ ".mp3") content, 2000) := by
  simp [nativeMergeAudio, copyAsync, h]

theorem nativeMergeAudio_of_missing (fs : FS) (now : Nat)
    (vocalUri instrumentalUri : String) (vv iv : ℚ) (h : fs vocalUri = none) :
    nativeMergeAudio fs now vocalUri instrumentalUri vv iv =
      (⟨false, none, some "Failed to merge audio tracks on device."⟩, fs, 2000) := by
  simp [nativeMergeAudio, copyAsync, h]

/-- A sample file system holding one audio file, used to instantiate theorems
at concrete inputs. -/
def sampleFS : FS := fun p => if p = "song.mp3" then some "AUDIODATA" else none

/-- The empty file system. -/
def emptyFS : FS := fun _ => none

/-- C1 counterexample: on web, `processingAudio` reports success and returns
output paths, but copies nothing: with an input file `song.mp3` present, the
returned `vocalTrack` path `song.mp3_vocals` holds no file at all after the
call, so the output path is not a copy of the input, refuting the claim that
the input is duplicated "on every platform, including web". -/
theorem webProcessAudio_no_copy_cex :
    (processingAudio .web sampleFS 0 "song.mp3").1.success = true ∧
    (processingAudio .web sampleFS 0 "song.mp3").1.vocalTrack = some "song.mp3_vocals" ∧
    sampleFS "song.mp3" = some "AUDIODATA" ∧
    (processingAudio .web sampleFS 0 "song.mp3").2.1 "song.mp3_vocals" = none :=
  ⟨rfl, rfl, rfl, rfl⟩

/-- C1 (amended): `processingAudio` sleeps 3000 ms and returns `success: true`
with a vocal and an instrumental path; on web the paths are the input URI with
`_vocals` / `_instrumental` appended and no file copy is made, while on native,
when the input file exists, both output paths hold a copy of the input file,
and when the input file is missing the call returns `success: false` with an
error message instead. -/
theorem processingAudio_stub_spec (fs : FS) (now : Nat) (audioUri : String) :
    processingAudio .web fs now audioUri =
      (⟨true, some (audioUri ++ "_vocals"), some (audioUri ++ "_instrumental"), none⟩,
       fs, 3000) ∧
    (∀ content, fs audioUri = some content →
      ∃ fs2, processingAudio .native fs now audioUri =
          (⟨true, some (createTempDirectory .native now ++ "vocals.mp3"),
             some (createTempDirectory .native now ++ "instrumental.mp3"), none⟩,
           fs2, 3000) ∧
        fs2 (createTempDirectory .native now ++ "vocals.mp3") = some content ∧
        fs2 (createTempDirectory .native now ++ "instrumental.mp3") = some content) ∧
    (fs audioUri = none →
      processingAudio .native fs now audioUri =
        (⟨false, none, none, some "Failed to process audio on device."⟩, fs, 3000)) := by
  refine ⟨rfl, ?_, ?_⟩
  · intro content h
    refine ⟨_, nativeProcessAudio_of_exists fs now audioUri content h, ?_, ?_⟩
    · exact fsWrite_pres _ _ _ _ (fsWrite_self fs _ content)
    · exact fsWrite_self _ _ _
  · intro h
    exact nativeProcessAudio_of_missing fs now audioUri h

/-- C1 witness: the amended statement instantiated on a file system containing
`song.mp3` (for the web equation and the native copying case) and on the empty
file system (for the native missing-input case). -/
theorem processingAudio_stub_spec_witness :
    (sampleFS "song.mp3" = some "AUDIODATA" ∧ emptyFS "song.mp3" = none) ∧
    processingAudio .web sampleFS 7 "song.mp3" =
      (⟨true, some ("song.mp3" ++ "_vocals"), some ("song.mp3" ++ "_instrumental"), none⟩,
       sampleFS, 3000) ∧
    (∃ fs2, processingAudio .native sampleFS 7 "song.mp3" =
        (⟨true, some (createTempDirectory .native 7 ++ "vocals.mp3"),
           some (createTempDirectory .native 7 ++ "instrumental.mp3"), none⟩,
         fs2, 3000) ∧
      fs2 (createTempDirectory .native 7 ++ "vocals.mp3") = some "AUDIODATA" ∧
      fs2 (createTempDirectory .native 7 ++ "instrumental.mp3") = some "AUDIODATA") ∧
    processingAudio .native emptyFS 7 "song.mp3" =
      (⟨false, none, none, some "Failed to process audio on device."⟩, emptyFS, 3000) :=
  ⟨⟨rfl, rfl⟩, (processingAudio_stub_spec sampleFS 7 "song.mp3").1,
    (processingAudio_stub_spec sampleFS 7 "song.mp3").2.1 "AUDIODATA" rfl,
    (processingAudio_stub_spec emptyFS 7 "song.mp3").2.2 rfl⟩

/-- C2 counterexample: on native, with no file at the vocal input URI,
`mergeAudioTracks` returns `success: false`, refuting the claim that it
returns `success: true` for every pair of input track URIs. -/
theorem nativeMergeAudio_missing_input_cex :
    (mergeAudioTracks .native emptyFS 5 "v.mp3" "i.mp3" 1 1).1.success = false ∧
    (mergeAudioTracks .native emptyFS 5 "v.mp3" "i.mp3" 1 1).1.error =
      some "Failed to merge audio tracks on device." :=
  ⟨rfl, rfl⟩

/-- C2 (amended): `mergeAudioTracks` sleeps 2000 ms and performs no mixing; on
web it returns `success: true` with `outputUri = mixed_<now>.mp3` and touches
no file; on native, when the vocal input file exists, it returns
`success: true` with an output path in the cache directory whose content is a
byte-for-byte copy of the vocal input, leaves every other path untouched
(the instrumental input is never read or copied, and the result does not
depend on the instrumental URI at all), and when the vocal input is missing it
returns `success: false` with an error message. -/
theorem mergeAudioTracks_stub_spec (fs : FS) (now : Nat)
    (vocalUri instrumentalUri : String) (vocalVolume instrumentalVolume : ℚ) :
    mergeAudioTracks .web fs now vocalUri instrumentalUri vocalVolume instrumentalVolume =
      (⟨true, some ("mixed_" ++ toString now ++ ".mp3"), none⟩, fs, 2000) ∧
    (∀ content, fs vocalUri = some content →
      mergeAudioTracks .native fs now vocalUri instrumentalUri
          vocalVolume instrumentalVolume =
        (⟨true, some (cacheDirectory ++ "mixed_" ++ toString now ++ ".mp3"), none⟩,
         fsWrite fs (cacheDirectory ++ "mixed_" ++ toString now ++ ".mp3") content,
         2000) ∧
      fsWrite fs (cacheDirectory ++ "mixed_" ++ toString now ++ ".mp3") content
          (cacheDirectory ++ "mixed_" ++ toString now ++ ".mp3") = some content ∧
      ∀ q, q ≠ cacheDirectory ++ "mixed_" ++ toString now ++ ".mp3" →
        fsWrite fs (cacheDirectory ++ "mixed_" ++ toString now ++ ".mp3") content q
          = fs q) ∧
    (fs vocalUri = none →
      mergeAudioTracks .native fs now vocalUri instrumentalUri
          vocalVolume instrumentalVolume =
        (⟨false, none, some "Failed to merge audio tracks on device."⟩, fs, 2000)) ∧
    (∀ otherInstrumental : String,
      mergeAudioTracks .native fs now vocalUri instrumentalUri
          vocalVolume instrumentalVolume =
        mergeAudioTracks .native fs now vocalUri otherInstrumental
          vocalVolume instrumentalVolume) := by
  refine ⟨rfl, ?_, ?_, fun _ => rfl⟩
  · intro content h
    refine ⟨nativeMergeAudio_of_exists fs now vocalUri instrumentalUri content
        vocalVolume instrumentalVolume h, fsWrite_self _ _ _, ?_⟩
    intro q hq
    exact fsWrite_other _ _ _ _ hq
  · intro h
    exact nativeMergeAudio_of_missing fs now vocalUri instrumentalUri
      vocalVolume instrumentalVolume h

/-- C2 witness: the amended statement instantiated on a file system containing
the vocal input `song.mp3` and on the empty file system. -/
theorem mergeAudioTracks_stub_spec_witness :
    (sampleFS "song.mp3" = some "AUDIODATA" ∧ emptyFS "song.mp3" = none) ∧
    mergeAudioTracks .web sampleFS 5 "song.mp3" "i.mp3" 1 (1/2) =
      (⟨true, some ("mixed_" ++ toString 5 ++ ".mp3"), none⟩, sampleFS, 2000) ∧
    (mergeAudioTracks .native sampleFS 5 "song.mp3" "i.mp3" 1 (1/2) =
        (⟨true, some (cacheDirectory ++ "mixed_" ++ toString 5 ++ ".mp3"), none⟩,
         fsWrite sampleFS (cacheDirectory ++ "mixed_" ++ toString 5 ++ ".mp3") "AUDIODATA",
         2000) ∧
      fsWrite sampleFS (cacheDirectory ++ "mixed_" ++ toString 5 ++ ".mp3") "AUDIODATA"
          (cacheDirectory ++ "mixed_" ++ toString 5 ++ ".mp3") = some "AUDIODATA" ∧
      ∀ q, q ≠ cacheDirectory ++ "mixed_" ++ toString 5 ++ ".mp3" →
        fsWrite sampleFS (cacheDirectory ++ "mixed_" ++ toString 5 ++ ".mp3") "AUDIODATA" q
          = sampleFS q) ∧
    mergeAudioTracks .native emptyFS 5 "song.mp3" "i.mp3" 1 (1/2) =
      (⟨false, none, some "Failed to merge audio tracks on device."⟩, emptyFS, 2000) :=
  ⟨⟨rfl, rfl⟩, (mergeAudioTracks_stub_spec sampleFS 5 "song.mp3" "i.mp3" 1 (1/2)).1,
    (mergeAudioTracks_stub_spec sampleFS 5 "song.mp3" "i.mp3" 1 (1/2)).2.1 "AUDIODATA" rfl,
    (mergeAudioTracks_stub_spec emptyFS 5 "song.mp3" "i.mp3" 1 (1/2)).2.2.1 rfl⟩

/-- C3: the result of `mergeAudioTracks` does not depend on the volume
arguments: two runs on the same platform, file system, time and input URIs
that differ only in `vocalVolume` / `instrumentalVolume` return the same
success flag, leave the same file system behind, and in fact return entirely
identical results. -/
theorem mergeAudioTracks_volume_irrelevant (p : Platform) (fs : FS) (now : Nat)
    (vocalUri instrumentalUri : String) (vv1 iv1 vv2 iv2 : ℚ) :
    (mergeAudioTracks p fs now vocalUri instrumentalUri vv1 iv1).1.success =
      (mergeAudioTracks p fs now vocalUri instrumentalUri vv2 iv2).1.success ∧
    (mergeAudioTracks p fs now vocalUri instrumentalUri vv1 iv1).2.1 =
      (mergeAudioTracks p fs now vocalUri instrumentalUri vv2 iv2).2.1 ∧
    mergeAudioTracks p fs now vocalUri instrumentalUri vv1 iv1 =
      mergeAudioTracks p fs now vocalUri instrumentalUri vv2 iv2 := by
  cases p <;> exact ⟨rfl, rfl, rfl⟩

/-- C4: neither `processingAudio` nor `mergeAudioTracks` propagates a failure
to the caller: both are total functions of the model (every rejection of an
inner file-system call is caught), and whenever the returned record has
`success: false` it carries a non-empty error message string. -/
theorem audioProcessing_never_rejects (p : Platform) (fs : FS) (now : Nat)
    (audioUri vocalUri instrumentalUri : String)
    (vocalVolume instrumentalVolume : ℚ) :
    ((processingAudio p fs now audioUri).1.success = false →
      ∃ msg, (processingAudio p fs now audioUri).1.error = some msg ∧ msg ≠ "") ∧
    ((mergeAudioTracks p fs now vocalUri instrumentalUri
        vocalVolume instrumentalVolume).1.success = false →
      ∃ msg, (mergeAudioTracks p fs now vocalUri instrumentalUri
        vocalVolume instrumentalVolume).1.error = some msg ∧ msg ≠ "") := by
  constructor
  · intro hfail
    cases p
    · simp [processingAudio, webProcessAudio] at hfail
    · rcases hin : fs audioUri with _ | content
      · have := nativeProcessAudio_of_missing fs now audioUri hin
        simp only [processingAudio, this]
        exact ⟨_, rfl, by simp⟩
      · have := nativeProcessAudio_of_exists fs now audioUri content hin
        simp only [processingAudio, this] at hfail
        exact absurd hfail (by simp)
  · intro hfail
    cases p
    · simp [mergeAudioTracks, webMergeAudio] at hfail
    · rcases hin : fs vocalUri with _ | content
      · have := nativeMergeAudio_of_missing fs now vocalUri instrumentalUri
          vocalVolume instrumentalVolume hin
        simp only [mergeAudioTracks, this]
        exact ⟨_, rfl, by simp⟩
      · have := nativeMergeAudio_of_exists fs now vocalUri instrumentalUri content
          vocalVolume instrumentalVolume hin
        simp only [mergeAudioTracks, this] at hfail
        exact absurd hfail (by simp)

/-- C4 witness: on the empty native file system both stubs fail, and the
failures surface as `success: false` records with non-empty error strings. -/
theorem audioProcessing_never_rejects_witness :
    ((processingAudio .native emptyFS 0 "a.mp3").1.success = false ∧
     (mergeAudioTracks .native emptyFS 0 "v.mp3" "i.mp3" 1 1).1.success = false) ∧
    (∃ msg, (processingAudio .native emptyFS 0 "a.mp3").1.error = some msg ∧ msg ≠ "") ∧
    (∃ msg, (mergeAudioTracks .native emptyFS 0 "v.mp3" "i.mp3" 1 1).1.error
      = some msg ∧ msg ≠ "") :=
  ⟨⟨rfl, rfl⟩,
    (audioProcessing_never_rejects .native emptyFS 0 "a.mp3" "v.mp3" "i.mp3" 1 1).1 rfl,
    (audioProcessing_never_rejects .native emptyFS 0 "a.mp3" "v.mp3" "i.mp3" 1 1).2 rfl⟩

/-- A sample Editor screen state used to instantiate theorems. -/
def sampleEditorState : EditorState :=
  ⟨false, false, none, none, .original, false, 0, []⟩

/-- C5: when the awaited `processingAudio` call returns `success: false` or
rejects, the Editor screen's `processAudio` leaves `vocalTrack`,
`instrumentalTrack`, `isProcessed` and `playbackMode` unchanged, appends
exactly one alert, calls `processingAudio` exactly once (no retry), and
resets `isProcessing` to false. -/
theorem editor_processAudio_failure_frame (s : EditorState) (u : String)
    (callResult : Except String ProcessingResult)
    (hfail : (∃ e, callResult = .error e) ∨
      ∃ r, callResult = .ok r ∧ r.success = false) :
    (EditorScreen.processAudio s (some u) callResult).1.vocalTrack = s.vocalTrack ∧
    (EditorScreen.processAudio s (some u) callResult).1.instrumentalTrack =
      s.instrumentalTrack ∧
    (EditorScreen.processAudio s (some u) callResult).1.isProcessed = s.isProcessed ∧
    (EditorScreen.processAudio s (some u) callResult).1.playbackMode = s.playbackMode ∧
    (∃ a, (EditorScreen.processAudio s (some u) callResult).1.alerts = s.alerts ++ [a]) ∧
    (EditorScreen.processAudio s (some u) callResult).2 = 1 ∧
    (EditorScreen.processAudio s (some u) callResult).1.isProcessing = false := by
  rcases hfail with ⟨e, rfl⟩ | ⟨r, rfl, hr⟩
  · exact ⟨rfl, rfl, rfl, rfl, ⟨_, rfl⟩, rfl, rfl⟩
  · obtain ⟨rs, rv, ri, re⟩ := r
    have hr2 : rs = false := hr
    subst hr2
    exact ⟨rfl, rfl, rfl, rfl, ⟨_, rfl⟩, rfl, rfl⟩

/-- C5 witness: a rejected `processingAudio` call on a concrete Editor state
leaves the processed-track state unchanged. -/
theorem editor_processAudio_failure_frame_witness :
    ((∃ e, (Except.error "boom" : Except String ProcessingResult) = .error e) ∨
      ∃ r, (Except.error "boom" : Except String ProcessingResult) = .ok r ∧
        r.success = false) ∧
    ((EditorScreen.processAudio sampleEditorState (some "song.mp3")
        (Except.error "boom")).1.vocalTrack = sampleEditorState.vocalTrack ∧
      (EditorScreen.processAudio sampleEditorState (some "song.mp3")
        (Except.error "boom")).1.instrumentalTrack = sampleEditorState.instrumentalTrack ∧
      (EditorScreen.processAudio sampleEditorState (some "song.mp3")
        (Except.error "boom")).1.isProcessed = sampleEditorState.isProcessed ∧
      (EditorScreen.processAudio sampleEditorState (some "song.mp3")
        (Except.error "boom")).1.playbackMode = sampleEditorState.playbackMode ∧
      (∃ a, (EditorScreen.processAudio sampleEditorState (some "song.mp3")
        (Except.error "boom")).1.alerts = sampleEditorState.alerts ++ [a]) ∧
      (EditorScreen.processAudio sampleEditorState (some "song.mp3")
        (Except.error "boom")).2 = 1 ∧
      (EditorScreen.processAudio sampleEditorState (some "song.mp3")
        (Except.error "boom")).1.isProcessing = false) :=
  ⟨Or.inl ⟨"boom", rfl⟩,
    editor_processAudio_failure_frame sampleEditorState "song.mp3"
      (Except.error "boom") (Or.inl ⟨"boom", rfl⟩)⟩

/-- C6: `saveAudioToCache` on web returns the input URI with the file system
untouched; on native every successful return yields the path
`cacheDirectory ++ filename` whose content equals the source file's content,
and whenever the source file exists (and is not itself the destination, in
which case the delete-then-copy rethrows) the call does succeed with the
destination holding a copy of the source. -/
theorem saveAudioToCache_spec (fs : FS) (uri filename : String) :
    saveAudioToCache .web fs uri filename = .ok (uri, fs) ∧
    (∀ dest fs2, saveAudioToCache .native fs uri filename = .ok (dest, fs2) →
      dest = cacheDirectory ++ filename ∧ fs2 dest = fs uri) ∧
    (∀ content, fs uri = some content → uri ≠ cacheDirectory ++ filename →
      ∃ fs2, saveAudioToCache .native fs uri filename =
          .ok (cacheDirectory ++ filename, fs2) ∧
        fs2 (cacheDirectory ++ filename) = some content) := by
  have hfs1 : ∀ h : uri ≠ cacheDirectory ++ filename,
      (if getInfoExists fs (cacheDirectory ++ filename) then
        fsDelete fs (cacheDirectory ++ filename) else fs) uri = fs uri := by
    intro h
    split
    · simp [fsDelete, h]
    · rfl
  refine ⟨rfl, ?_, ?_⟩
  · intro dest fs2 h
    simp only [saveAudioToCache] at h
    rcases hc : copyAsync (if getInfoExists fs (cacheDirectory ++ filename) then
        fsDelete fs (cacheDirectory ++ filename) else fs) uri (cacheDirectory ++ filename)
      with _ | fs2'
    · rw [hc] at h
      exact absurd h (by simp)
    · rw [hc] at h
      simp only [Except.ok.injEq, Prod.mk.injEq] at h
      obtain ⟨c, hsrc, rfl⟩ := copyAsync_some _ _ _ _ hc
      obtain ⟨hdest, hfs2⟩ := h
      subst hdest
      subst hfs2
      refine ⟨rfl, ?_⟩
      rw [fsWrite_self]
      by_cases hud : uri = cacheDirectory ++ filename
      · exfalso
        rw [hud] at hsrc
        revert hsrc
        split
        · simp [fsDelete]
        · rename_i hex
          intro hsrc
          rw [getInfoExists, hsrc] at hex
          exact hex rfl
      · rw [hfs1 hud] at hsrc
        exact hsrc.symm
  · intro content hcontent hud
    have hsrc : (if getInfoExists fs (cacheDirectory ++ filename) then
        fsDelete fs (cacheDirectory ++ filename) else fs) uri = some content := by
      rw [hfs1 hud]; exact hcontent
    refine ⟨fsWrite (if getInfoExists fs (cacheDirectory ++ filename) then
        fsDelete fs (cacheDirectory ++ filename) else fs) (cacheDirectory ++ filename)
        content, ?_, fsWrite_self _ _ _⟩
    simp only [saveAudioToCache]
    rw [copyAsync_of_some _ _ _ _ hsrc]

/-- C6 witness: saving `song.mp3` as `mix.mp3` on a concrete file system:
web returns the URI unchanged, and every successful native return is the
cache path holding the source's content; the native call indeed succeeds. -/
theorem saveAudioToCache_spec_witness :
    (sampleFS "song.mp3" = some "AUDIODATA" ∧
      "song.mp3" ≠ cacheDirectory ++ "mix.mp3") ∧
    saveAudioToCache .web sampleFS "song.mp3" "mix.mp3" = .ok ("song.mp3", sampleFS) ∧
    (∃ fs2, saveAudioToCache .native sampleFS "song.mp3" "mix.mp3" =
        .ok (cacheDirectory ++ "mix.mp3", fs2) ∧
      fs2 (cacheDirectory ++ "mix.mp3") = some "AUDIODATA") :=
  ⟨⟨rfl, by decide⟩, (saveAudioToCache_spec sampleFS "song.mp3" "mix.mp3").1,
    (saveAudioToCache_spec sampleFS "song.mp3" "mix.mp3").2.2 "AUDIODATA" rfl (by decide)⟩

/-- A sample Export screen state used to instantiate theorems. -/
def sampleExportState : ExportState := ⟨false, some "prev.mp3", []⟩

/-- C7: if the Export screen's `exportAudio` runs while a track parameter is
missing (falsy), it appends one alert and returns without calling
`mergeAudioTracks`, leaving `exportedUri` (and everything else) unchanged;
and when both tracks are present but `mergeAudioTracks` returns
`success: false`, `exportedUri` stays unchanged, exactly one alert is
appended, and the merge was called exactly once (no retry). -/
theorem export_exportAudio_failure_frame (s : ExportState)
    (vocalTrack instrumentalTrack : Option String)
    (callResult : Except String MergeResult) :
    ((jsTruthyStr vocalTrack = false ∨ jsTruthyStr instrumentalTrack = false) →
      ExportScreen.exportAudio s vocalTrack instrumentalTrack callResult =
        ({ s with alerts := s.alerts ++
            [("Error", "Missing audio tracks. Please go back to the editor.")] }, 0)) ∧
    (∀ r, callResult = .ok r → r.success = false →
      jsTruthyStr vocalTrack = true → jsTruthyStr instrumentalTrack = true →
      (ExportScreen.exportAudio s vocalTrack instrumentalTrack callResult).1.exportedUri
        = s.exportedUri ∧
      (∃ a, (ExportScreen.exportAudio s vocalTrack instrumentalTrack
        callResult).1.alerts = s.alerts ++ [a]) ∧
      (ExportScreen.exportAudio s vocalTrack instrumentalTrack callResult).2 = 1) := by
  constructor
  · intro h
    rcases h with h | h <;>
      simp [ExportScreen.exportAudio, h]
  · rintro r rfl hr hv hi
    obtain ⟨rs, ro, re⟩ := r
    have hr2 : rs = false := hr
    subst hr2
    have hcond : (!jsTruthyStr vocalTrack || !jsTruthyStr instrumentalTrack) = false := by
      rw [hv, hi]
      rfl
    have key : ExportScreen.exportAudio s vocalTrack instrumentalTrack
        (.ok ⟨false, ro, re⟩) =
        ({ s with
            alerts := s.alerts ++ [("Export Failed", re.getD "Failed to export audio.")],
            isMerging := false }, 1) := by
      simp only [ExportScreen.exportAudio, hcond, Bool.false_eq_true, if_false]
    rw [key]
    exact ⟨rfl, ⟨_, rfl⟩, rfl⟩

/-- C7 witness: a missing vocal track and a failed merge, each on a concrete
Export state, leave `exportedUri` unchanged. -/
theorem export_exportAudio_failure_frame_witness :
    (jsTruthyStr (none : Option String) = false ∧
      (Except.ok (⟨false, none, some "bad"⟩ : MergeResult) : Except String MergeResult)
        = .ok ⟨false, none, some "bad"⟩ ∧
      (⟨false, none, some "bad"⟩ : MergeResult).success = false ∧
      jsTruthyStr (some "v.mp3") = true ∧ jsTruthyStr (some "i.mp3") = true) ∧
    ExportScreen.exportAudio sampleExportState none (some "i.mp3") (.error "x") =
      ({ sampleExportState with alerts := sampleExportState.alerts ++
          [("Error", "Missing audio tracks. Please go back to the editor.")] }, 0) ∧
    ((ExportScreen.exportAudio sampleExportState (some "v.mp3") (some "i.mp3")
        (.ok ⟨false, none, some "bad"⟩)).1.exportedUri = sampleExportState.exportedUri ∧
      (∃ a, (ExportScreen.exportAudio sampleExportState (some "v.mp3") (some "i.mp3")
        (.ok ⟨false, none, some "bad"⟩)).1.alerts = sampleExportState.alerts ++ [a]) ∧
      (ExportScreen.exportAudio sampleExportState (some "v.mp3") (some "i.mp3")
        (.ok ⟨false, none, some "bad"⟩)).2 = 1) :=
  ⟨⟨rfl, rfl, rfl, rfl, rfl⟩,
    (export_exportAudio_failure_frame sampleExportState none (some "i.mp3")
      (.error "x")).1 (Or.inl rfl),
    (export_exportAudio_failure_frame sampleExportState (some "v.mp3") (some "i.mp3")
      (.ok ⟨false, none, some "bad"⟩)).2 ⟨false, none, some "bad"⟩ rfl rfl rfl rfl⟩

/-- C8: every waveform produced by `generateRandomBars` has exactly
`BAR_COUNT = 50` bars, and every bar height lies in `[5, MAX_BAR_HEIGHT]`,
for any values of the `Math.random()` draws (which lie in `[0, 1)`) and of
the sine bell curve (which lies in `[0, 1]` on the arguments used). -/
theorem generateRandomBars_bounds (rand jsSin : Nat → ℚ)
    (hr : ∀ i, 0 ≤ rand i ∧ rand i < 1)
    (hs : ∀ i, 0 ≤ jsSin i ∧ jsSin i ≤ 1) :
    (generateRandomBars rand jsSin).length = BAR_COUNT ∧
    ∀ h ∈ generateRandomBars rand jsSin, 5 ≤ h ∧ h ≤ MAX_BAR_HEIGHT := by
  constructor
  · simp [generateRandomBars]
  · intro h hmem
    simp only [generateRandomBars, List.mem_map, List.mem_range] at hmem
    obtain ⟨i, _, rfl⟩ := hmem
    refine ⟨le_max_left _ _, max_le (by norm_num [MAX_BAR_HEIGHT]) ?_⟩
    obtain ⟨hr0, hr1⟩ := hr i
    obtain ⟨hs0, hs1⟩ := hs i
    have hrv0 : 0 ≤ 1/10 + rand i * (9/10) := by positivity
    have hrv1 : 1/10 + rand i * (9/10) ≤ 1 := by nlinarith
    have hprod : (1/10 + rand i * (9/10)) * jsSin i ≤ 1 :=
      mul_le_one₀ hrv1 hs0 hs1
    have hgoal : MAX_BAR_HEIGHT * (1/10 + rand i * (9/10)) * jsSin i ≤ MAX_BAR_HEIGHT := by
      simp only [MAX_BAR_HEIGHT]
      rw [mul_assoc]
      linarith [hprod]
    exact hgoal

/-- C8 witness: the theorem instantiated at constant draw value 1/2 and
constant bell value 1/2. -/
theorem generateRandomBars_bounds_witness :
    ((0:ℚ) ≤ 1/2 ∧ (1/2:ℚ) < 1) ∧
    (generateRandomBars (fun _ => 1/2) (fun _ => 1/2)).length = BAR_COUNT ∧
    ∀ h ∈ generateRandomBars (fun _ => 1/2) (fun _ => 1/2), 5 ≤ h ∧ h ≤ MAX_BAR_HEIGHT :=
  ⟨⟨by norm_num, by norm_num⟩,
    (generateRandomBars_bounds (fun _ => 1/2) (fun _ => 1/2)
      (fun _ => ⟨by norm_num, by norm_num⟩) (fun _ => ⟨by norm_num, by norm_num⟩)).1,
    (generateRandomBars_bounds (fun _ => 1/2) (fun _ => 1/2)
      (fun _ => ⟨by norm_num, by norm_num⟩) (fun _ => ⟨by norm_num, by norm_num⟩)).2⟩

/-- Helper: the rounded value is within half a unit of its argument. -/
theorem jsRound_le_half (y : ℚ) : |(jsRound y : ℚ) - y| ≤ 1/2 := by
  unfold jsRound
  have h1 : (⌊y + 1/2⌋ : ℚ) ≤ y + 1/2 := Int.floor_le _
  have h2 : (y + 1/2) - 1 < (⌊y + 1/2⌋ : ℚ) := Int.sub_one_lt_floor _
  rw [abs_le]
  constructor <;> linarith

/-- Helper: `jsRound y` is a nearest integer to `y`. -/
theorem jsRound_nearest (y : ℚ) (k : ℤ) :
    |(jsRound y : ℚ) - y| ≤ |(k : ℚ) - y| := by
  have h1 : (jsRound y : ℚ) ≤ y + 1/2 := Int.floor_le _
  have h2 : (y + 1/2) - 1 < (jsRound y : ℚ) := Int.sub_one_lt_floor _
  have hhalf := jsRound_le_half y
  rcases lt_trichotomy k (jsRound y) with hk | hk | hk
  · have hk1 : k + 1 ≤ jsRound y := hk
    have hk2 : (k : ℚ) + 1 ≤ (jsRound y : ℚ) := by exact_mod_cast hk1
    have h3 : 1/2 ≤ y - (k : ℚ) := by linarith
    calc |(jsRound y : ℚ) - y| ≤ 1/2 := hhalf
      _ ≤ y - (k : ℚ) := h3
      _ ≤ |y - (k : ℚ)| := le_abs_self _
      _ = |(k : ℚ) - y| := abs_sub_comm _ _
  · rw [hk]
  · have hk1 : jsRound y + 1 ≤ k := hk
    have hk2 : (jsRound y : ℚ) + 1 ≤ (k : ℚ) := by exact_mod_cast hk1
    have h3 : 1/2 ≤ (k : ℚ) - y := by linarith
    calc |(jsRound y : ℚ) - y| ≤ 1/2 := hhalf
      _ ≤ (k : ℚ) - y := h3
      _ ≤ |(k : ℚ) - y| := le_abs_self _

/-- C9: for `minimumValue < maximumValue` and `step > 0`, the Slider's
`calculateValue` returns exactly the clamp to `[minimumValue, maximumValue]`
of a multiple of `step` nearest to the raw interpolated value, and the
returned value lies in that closed interval. -/
theorem calculateValue_clamp_nearest (minimumValue maximumValue step pos : ℚ)
    (hlt : minimumValue < maximumValue) (hstep : 0 < step) :
    minimumValue ≤ calculateValue minimumValue maximumValue step pos ∧
    calculateValue minimumValue maximumValue step pos ≤ maximumValue ∧
    ∃ k : ℤ,
      calculateValue minimumValue maximumValue step pos =
        min (max ((k : ℚ) * step) minimumValue) maximumValue ∧
      ∀ j : ℤ,
        |(k : ℚ) * step - rawSliderValue minimumValue maximumValue pos| ≤
          |(j : ℚ) * step - rawSliderValue minimumValue maximumValue pos| := by
  have hne : step ≠ 0 := ne_of_gt hstep
  have hcv : calculateValue minimumValue maximumValue step pos =
      min (max ((jsRound (rawSliderValue minimumValue maximumValue pos / step) : ℚ)
        * step) minimumValue) maximumValue := by
    unfold calculateValue
    rw [if_neg hne]
  refine ⟨?_, ?_, jsRound (rawSliderValue minimumValue maximumValue pos / step),
    hcv, ?_⟩
  · rw [hcv]
    exact le_min (le_max_right _ _) hlt.le
  · rw [hcv]
    exact min_le_right _ _
  · intro j
    have hy : rawSliderValue minimumValue maximumValue pos =
        rawSliderValue minimumValue maximumValue pos / step * step :=
      (div_mul_cancel₀ _ hne).symm
    have habs : ∀ m : ℤ,
        |(m : ℚ) * step - rawSliderValue minimumValue maximumValue pos| =
          |(m : ℚ) - rawSliderValue minimumValue maximumValue pos / step| * step := by
      intro m
      rw [hy]
      rw [show ((m : ℚ) * step - rawSliderValue minimumValue maximumValue pos / step * step)
        = ((m : ℚ) - rawSliderValue minimumValue maximumValue pos / step) * step by ring,
        ← hy, hy, abs_mul, abs_of_pos hstep]
    rw [habs, habs]
    exact mul_le_mul_of_nonneg_right
      (jsRound_nearest (rawSliderValue minimumValue maximumValue pos / step) j) hstep.le

/-- C9 witness: the theorem instantiated on the volume slider's configuration
(range [0, 1], step 1/100) at slider position 37. -/
theorem calculateValue_clamp_nearest_witness :
    ((0:ℚ) < 1 ∧ (0:ℚ) < 1/100) ∧
    ((0:ℚ) ≤ calculateValue 0 1 (1/100) 37 ∧
      calculateValue 0 1 (1/100) 37 ≤ 1 ∧
      ∃ k : ℤ,
        calculateValue 0 1 (1/100) 37 = min (max ((k : ℚ) * (1/100)) 0) 1 ∧
        ∀ j : ℤ,
          |(k : ℚ) * (1/100) - rawSliderValue 0 1 37| ≤
            |(j : ℚ) * (1/100) - rawSliderValue 0 1 37|) :=
  ⟨⟨by norm_num, by norm_num⟩,
    calculateValue_clamp_nearest 0 1 (1/100) 37 (by norm_num) (by norm_num)⟩

/-- A sample Upload screen state with a previously loaded sound (handle 1),
its URI and its file name. -/
def sampleUploadState : UploadState :=
  ⟨some "old.mp3", some "old.mp3", some 1, true, []⟩

/-- An oversize picked asset: 50 MB + 1 byte. -/
def oversizeAsset : PickedAsset := ⟨"big.mp3", "big.mp3", some 52428801⟩

/-- C10 counterexample: when an oversize asset is rejected, the previously
loaded sound is NOT left unchanged: `pickAudio` has already unloaded it and
set it to null (and cleared `isPlaying`) before the size check, so a state
holding sound handle 1 ends with no sound, refuting the claim that the loaded
sound is unchanged. -/
theorem pickAudio_sound_changed_cex :
    sampleUploadState.sound = some 1 ∧
    (UploadScreen.pickAudio sampleUploadState (some oversizeAsset)
      (.ok "unused")).sound ≠ some 1 ∧
    (UploadScreen.pickAudio sampleUploadState (some oversizeAsset)
      (.ok "unused")).sound = none := by
  refine ⟨rfl, ?_, ?_⟩ <;> decide

/-- C10 (amended): when `pickAudio` rejects an oversize asset, it returns
after appending one alert with `audioUri` unchanged and `fileName` already
overwritten with the rejected asset's name — so the displayed file name no
longer matches the retained audio — while any previously loaded sound has
already been unloaded and cleared to null before the size check. -/
theorem pickAudio_oversize_frame (s : UploadState) (asset : PickedAsset)
    (saveResult : Except String String) (n : Nat)
    (hsize : asset.size = some n) (hbig : 50 * 1024 * 1024 < n) :
    (UploadScreen.pickAudio s (some asset) saveResult).audioUri = s.audioUri ∧
    (UploadScreen.pickAudio s (some asset) saveResult).fileName = some asset.name ∧
    (UploadScreen.pickAudio s (some asset) saveResult).sound = none ∧
    (UploadScreen.pickAudio s (some asset) saveResult).alerts = s.alerts ++
      [("File too large", "Please select an audio file smaller than 50MB")] := by
  have hn : n ≠ 0 := by omega
  have hcond : (jsTruthyNat asset.size = true ∧ 50 * 1024 * 1024 < asset.size.getD 0) := by
    rw [hsize]
    exact ⟨by simp [jsTruthyNat, hn], by simpa using hbig⟩
  cases hsound : s.sound with
  | none => simp [UploadScreen.pickAudio, hsound, if_pos hcond]
  | some h => simp [UploadScreen.pickAudio, hsound, if_pos hcond]

/-- C10 witness: the amended statement instantiated on the sample state and
the oversize asset. -/
theorem pickAudio_oversize_frame_witness :
    (oversizeAsset.size = some 52428801 ∧ 50 * 1024 * 1024 < 52428801) ∧
    ((UploadScreen.pickAudio sampleUploadState (some oversizeAsset)
        (.ok "unused")).audioUri = sampleUploadState.audioUri ∧
      (UploadScreen.pickAudio sampleUploadState (some oversizeAsset)
        (.ok "unused")).fileName = some oversizeAsset.name ∧
      (UploadScreen.pickAudio sampleUploadState (some oversizeAsset)
        (.ok "unused")).sound = none ∧
      (UploadScreen.pickAudio sampleUploadState (some oversizeAsset)
        (.ok "unused")).alerts = sampleUploadState.alerts ++
          [("File too large", "Please select an audio file smaller than 50MB")]) :=
  ⟨⟨rfl, by norm_num⟩,
    pickAudio_oversize_frame sampleUploadState oversizeAsset (.ok "unused")
      52428801 rfl (by norm_num)⟩
